import Mathlib

/-!
# Ollama terminal assistant: conversation session and command dispatcher

A shallow embedding of `src/main.cpp` (classes `ColorUtils`, `OllamaAssistant`
and `TerminalInterface`) together with theorems about the conversation history,
the chat exchange and the dispatch loop.

Conventions of the embedding:

* `std::string` is `String` (text is taken to be valid UTF-8);
* `std::cout` is a `String` that only grows; every `<<` appends to it;
* a C++ function that may throw returns `Except`; the state it has already
  mutated when it throws is returned next to the `Except` value;
* the outcome of every `curl_easy_perform` and of the nested `std::getline`
  is an input of the step that issues it (`Event`);
* `json::parse` is a parameter `parse`, its failure carrying `e.what()`;
* `size_t` arithmetic is `Nat` arithmetic modulo `2 ^ 64`, `int` is `Int`
  with an explicit range check or wrap;
* `sendMessage` frees the header list it has set on the shared curl handle
  and leaves `CURLOPT_HTTPHEADER` pointing at it; a later transfer on that
  handle that has not set the option again reads freed memory. That is
  undefined behaviour: the call does not return and the run ends there
  (`none`, `Crashed`).
-/

namespace OllamaTerminal

/-! ## JSON values (the part of `nlohmann::json` the program uses) -/

/-- A JSON value. Objects are association lists read by key. The program never
reads a number, it only meets one where it wants a string or an object, so
every number is an integer here. -/
inductive Json where
  | null : Json
  | bool (b : Bool) : Json
  | num (n : Int) : Json
  | str (s : String) : Json
  | arr (xs : List Json) : Json
  | obj (kvs : List (String × Json)) : Json

namespace Json

/-- The library's `type_name()`, used in the text of type errors. -/
def type_name : Json → String
  | null => "null"
  | bool _ => "boolean"
  | num _ => "number"
  | str _ => "string"
  | arr _ => "array"
  | obj _ => "object"

/-- First value stored under `key` in an association list. -/
def lookup (key : String) : List (String × Json) → Option Json
  | [] => none
  | (k, v) :: rest => if k = key then some v else lookup key rest

/-- The call `j.contains(key)`: true only for an object that has the key. -/
def contains (j : Json) (key : String) : Bool :=
  match j with
  | obj kvs => (lookup key kvs).isSome
  | _ => false

/-- The call `j[key]`. On an object it yields the stored value (a null value
for an absent key), on null it yields null, and on every other value the
library throws `type_error.305`. -/
def index (j : Json) (key : String) : Except String Json :=
  match j with
  | obj kvs => .ok ((lookup key kvs).getD null)
  | null => .ok null
  | other => .error ("[json.exception.type_error.305] cannot use operator[] with a string argument with "
      ++ other.type_name)

/-- Conversion to `std::string` (`get<std::string>()` and the implicit
conversion): the library throws `type_error.302` unless the value is a string. -/
def get_string (j : Json) : Except String String :=
  match j with
  | str s => .ok s
  | other => .error ("[json.exception.type_error.302] type must be string, but is " ++ other.type_name)

end Json

/-! ## Transport outcomes -/

/-- Outcome of one `curl_easy_perform`: a transport error with the text of
`curl_easy_strerror`, or `CURLE_OK` with the response code and the body
collected by the write callback. -/
inductive CurlResult where
  | failed (strerror : String) : CurlResult
  | ok (response_code : Int) (data : String) : CurlResult
  deriving DecidableEq, Repr

/-- The options a method sets on its curl handle before `curl_easy_perform`:
the URL, whether it asks for POST, the headers, the timeout in seconds and the
JSON value whose `dump()` is the body. -/
structure Request where
  url : String
  post : Bool
  headers : List String
  timeout : Nat
  payload : Option Json

/-- Exceptions that travel through the `try` block of `sendMessage`. -/
inductive Exception where
  | json_exception (what : String) : Exception
  | runtime_error (what : String) : Exception
  deriving DecidableEq, Repr

/-! ## ColorUtils -/

namespace ColorUtils

def RESET : String := "\x1b[0m"
def BOLD : String := "\x1b[1m"
def DIM : String := "\x1b[2m"
def RED : String := "\x1b[31m"
def GREEN : String := "\x1b[32m"
def YELLOW : String := "\x1b[33m"
def BLUE : String := "\x1b[34m"
def MAGENTA : String := "\x1b[35m"
def CYAN : String := "\x1b[36m"
def WHITE : String := "\x1b[37m"
def GRAY : String := "\x1b[90m"

/-- Text wrapped in a colour code when colours are enabled. -/
def colorize (colors_enabled : Bool) (text color : String) : String :=
  if !colors_enabled then text else color ++ text ++ RESET

end ColorUtils

/-! ## OllamaAssistant -/

/-- One element of `conversation_history`: the JSON object with the two
string fields `role` and `content`. -/
structure Message where
  role : String
  content : String
  deriving DecidableEq, Repr

/-- The JSON object a history element is. -/
def Message.toJson (m : Message) : Json :=
  .obj [("role", .str m.role), ("content", .str m.content)]

/-- The fields of `OllamaAssistant` (the curl handle apart). -/
structure OllamaAssistant where
  api_url : String
  model_name : String
  conversation_history : List Message
  deriving DecidableEq, Repr

/-- The process as the dispatcher sees it: the assistant, the colour switch of
`ColorUtils`, everything written to `std::cout`, the requests performed so far
on the network, and whether `CURLOPT_HTTPHEADER` of the assistant's curl handle
points at a header list that `curl_slist_free_all` has freed. -/
structure World where
  assistant : OllamaAssistant
  colors_enabled : Bool
  cout : String
  requests : List Request
  headers_freed : Bool

/-- The message both the constructor and `clearConversation` push. -/
def systemMessage : Message :=
  { role := "system",
    content := "You are a helpful terminal assistant. Provide clear, concise responses focused on programming and technical help." }

/-- `std::endl`. -/
def endl : String := "\n"

namespace World

/-- `std::cout << text`. -/
def print (w : World) (text : String) : World :=
  { w with cout := w.cout ++ text }

/-- `ColorUtils::colorize` with the current colour switch. -/
def colorize (w : World) (text color : String) : String :=
  ColorUtils.colorize w.colors_enabled text color

end World

namespace OllamaAssistant

/-- The constructor, once `curl_easy_init` has succeeded. -/
def new (model : String) : OllamaAssistant :=
  { api_url := "http://localhost:11434/api/chat",
    model_name := model,
    conversation_history := [systemMessage] }

/-- The request body built by `sendMessage`. -/
def payload (a : OllamaAssistant) : Json :=
  .obj [("model", .str a.model_name),
        ("messages", .arr (a.conversation_history.map Message.toJson)),
        ("stream", .bool false)]

/-- The configuration of the chat request in `sendMessage`. -/
def chatRequest (a : OllamaAssistant) : Request :=
  { url := a.api_url,
    post := true,
    headers := ["Content-Type: application/json"],
    timeout := 60,
    payload := some a.payload }

/-- The body of the `try` block of `sendMessage`, up to the reply text. -/
def extractReply (parse : String → Except String Json) (data : String) : Except Exception String :=
  match parse data with
  | .error what => .error (.json_exception what)
  | .ok response_json =>
    if response_json.contains "error" then
      match response_json.index "error" with
      | .error what => .error (.json_exception what)
      | .ok err =>
        match err.get_string with
        | .error what => .error (.json_exception what)
        | .ok text => .error (.runtime_error ("Ollama Error: " ++ text))
    else if !response_json.contains "message" then
      .error (.runtime_error "Invalid Ollama API response: no message content found")
    else
      match response_json.index "message" with
      | .error what => .error (.json_exception what)
      | .ok message =>
        if !message.contains "content" then
          .error (.runtime_error "Invalid Ollama API response: no message content found")
        else
          match message.index "content" with
          | .error what => .error (.json_exception what)
          | .ok content =>
            match content.get_string with
            | .error what => .error (.json_exception what)
            | .ok assistant_reply => .ok assistant_reply

/-- The method `sendMessage`. The result is the world after the call and
either the reply or the text of the `std::runtime_error` thrown. The call sets
`CURLOPT_HTTPHEADER` to a fresh list before the transfer and frees that list
right after it, on every path. -/
def sendMessage (parse : String → Except String Json) (w : World) (message : String)
    (res : CurlResult) : World × Except String String :=
  let a1 : OllamaAssistant :=
    { w.assistant with
      conversation_history := w.assistant.conversation_history ++ [{ role := "user", content := message }] }
  let w1 : World :=
    { w with assistant := a1, requests := w.requests ++ [a1.chatRequest], headers_freed := true }
  match res with
  | .failed strerror =>
    (w1, .error ("HTTP request failed: " ++ strerror ++ "\nMake sure Ollama is running: ollama serve"))
  | .ok response_code data =>
    if response_code ≠ 200 then
      (w1, .error ("Ollama API request failed with HTTP " ++ toString response_code ++ ": " ++ data
        ++ "\nMake sure the model '" ++ a1.model_name ++ "' is installed: ollama pull " ++ a1.model_name))
    else
      match extractReply parse data with
      | .ok assistant_reply =>
        ({ w1 with
           assistant :=
             { a1 with
               conversation_history :=
                 a1.conversation_history ++ [{ role := "assistant", content := assistant_reply }] } },
         .ok assistant_reply)
      | .error (.runtime_error what) => (w1, .error what)
      | .error (.json_exception what) => (w1, .error ("JSON parsing error: " ++ what))

/-- The method `clearConversation`. -/
def clearConversation (w : World) : World :=
  let w1 : World := { w with assistant := { w.assistant with conversation_history := [systemMessage] } }
  w1.print (w1.colorize "✅ Conversation history cleared." ColorUtils.GREEN ++ "\n" ++ endl)

/-- The method `getConversationLength`: `size() - 1` in `size_t`. -/
def getConversationLength (a : OllamaAssistant) : Nat :=
  (a.conversation_history.length + 2 ^ 64 - 1) % 2 ^ 64

/-- The method `getCurrentModel`. -/
def getCurrentModel (a : OllamaAssistant) : String :=
  a.model_name

/-- The method `setModel`. -/
def setModel (w : World) (model : String) : World :=
  let w1 : World := { w with assistant := { w.assistant with model_name := model } }
  w1.print (w1.colorize "✅ Model changed to: " ColorUtils.GREEN
    ++ w1.colorize w1.assistant.model_name (ColorUtils.BOLD ++ ColorUtils.CYAN) ++ "\n" ++ endl)

/-- Iteration over a JSON value (`for (const auto& model : j)`): the elements
of an array, the values of an object, nothing for null, and the value itself
once for any other value. -/
def items : Json → List Json
  | .arr xs => xs
  | .obj kvs => kvs.map Prod.snd
  | .null => []
  | other => [other]

/-- The loop of `getAvailableModels` over the entries of the `models` field.
The names pushed so far are in `models`; a name that is not a string throws
inside the loop, which ends it with the names pushed so far. -/
def collectNames : List Json → List String → List String
  | [], models => models
  | model :: rest, models =>
    if model.contains "name" then
      match model.index "name" with
      | .error _ => models
      | .ok name =>
        match name.get_string with
        | .error _ => models
        | .ok text => collectNames rest (models ++ [text])
    else collectNames rest models

/-- The configuration of the listing request in `getAvailableModels`. -/
def tagsRequest : Request :=
  { url := "http://localhost:11434/api/tags",
    post := false,
    headers := [],
    timeout := 10,
    payload := none }

/-- The method `getAvailableModels`. It performs on the assistant's handle
without setting `CURLOPT_HTTPHEADER`: when that option points at a freed list
the transfer reads freed memory and nothing is returned (`none`). -/
def getAvailableModels (parse : String → Except String Json) (w : World) (res : CurlResult) :
    World × Option (List String) :=
  if w.headers_freed then (w, none)
  else
    let w1 : World := { w with requests := w.requests ++ [tagsRequest] }
    match res with
    | .failed _ => (w1, some [])
    | .ok _ data =>
      match parse data with
      | .error _ => (w1, some [])
      | .ok response_json =>
        if response_json.contains "models" then
          match response_json.index "models" with
          | .error _ => (w1, some [])
          | .ok entries => (w1, some (collectNames (items entries) []))
        else (w1, some [])

/-- The configuration of the probe in `checkOllamaConnection`. -/
def probeRequest : Request :=
  { url := "http://localhost:11434/api/tags",
    post := false,
    headers := [],
    timeout := 5,
    payload := none }

/-- The method `checkOllamaConnection`. It uses a handle of its own. The probe
is `none` when `curl_easy_init` gives no handle. -/
def checkOllamaConnection (w : World) (probe : Option CurlResult) : World × Bool :=
  match probe with
  | none => (w, false)
  | some res =>
    ({ w with requests := w.requests ++ [probeRequest] },
     match res with
     | .ok _ _ => true
     | .failed _ => false)

/-- The loop body of `showConversationHistory` over the messages after the
system message. -/
def historyText (w : World) : List Message → String
  | [] => ""
  | msg :: rest =>
    (if msg.role = "user" then
        w.colorize "👤 You: " (ColorUtils.BOLD ++ ColorUtils.BLUE) ++ msg.content ++ endl
      else if msg.role = "assistant" then
        w.colorize "🦙 Ollama: " (ColorUtils.BOLD ++ ColorUtils.GREEN) ++ msg.content ++ endl
      else "")
    ++ endl ++ historyText w rest

/-- The method `showConversationHistory`. -/
def showConversationHistory (w : World) : World :=
  let w1 := w.print ("\n" ++ w.colorize "=== Conversation History ===" (ColorUtils.BOLD ++ ColorUtils.CYAN) ++ endl)
  let w2 :=
    if w1.assistant.conversation_history.length ≤ 1 then
      w1.print (w1.colorize "No conversation history yet." ColorUtils.GRAY ++ endl)
    else
      w1.print (historyText w1 (w1.assistant.conversation_history.drop 1))
  w2.print (w2.colorize "========================" ColorUtils.CYAN ++ "\n" ++ endl)

end OllamaAssistant

/-! ## TerminalInterface -/

/-- State of the dispatch loop after a step: it waits for the next line, it
was left by `break`, or the step ran into undefined behaviour and the process
does not go on. -/
inductive LoopState where
  | AwaitingInput : LoopState
  | Stopped : LoopState
  | Crashed : LoopState
  deriving DecidableEq, Repr

/-- What the outside world supplies to one iteration of the loop of `run`:
the line read by `getInput`, the outcome of the chat request, of the listing
request and of the connection probe, and the line read inside `changeModel`.
An iteration uses only the parts its branch asks for. -/
structure Event where
  line : String
  chat : CurlResult
  tags : CurlResult
  probe : Option CurlResult
  selection : String

/-- The C library's `isspace` in the default locale. -/
def isspace (c : Char) : Bool :=
  c = ' ' || c = '\t' || c = '\n' || c = '\r' || c.toNat = 11 || c.toNat = 12

/-- Value of a run of decimal digits. -/
def digitsValue (ds : List Char) : Nat :=
  ds.foldl (fun acc c => acc * 10 + (c.toNat - 48)) 0

/-- The call `std::stoi(input)`: leading blanks, an optional sign, then the
longest run of decimal digits; no digit throws `std::invalid_argument`, a
value outside `int` throws `std::out_of_range`. -/
def stoi (input : String) : Except String Int :=
  let cs := input.toList.dropWhile isspace
  let signed : Bool × List Char :=
    match cs with
    | '-' :: rest => (true, rest)
    | '+' :: rest => (false, rest)
    | rest => (false, rest)
  let digits := signed.2.takeWhile Char.isDigit
  if digits = [] then .error "stoi"
  else
    let value : Int := if signed.1 then -(digitsValue digits : Int) else (digitsValue digits : Int)
    if value < -(2 : Int) ^ 31 ∨ value > (2 : Int) ^ 31 - 1 then .error "stoi" else .ok value

/-- The conversion `static_cast<int>(n)` of a `size_t`. -/
def static_cast_int (n : Nat) : Int :=
  ((n + 2 ^ 31) % 2 ^ 32 : Nat) - (2 : Int) ^ 31

namespace TerminalInterface

/-- The constructor, once the assistant could be built. -/
def new (model_name : String) (colors_enabled : Bool) : World :=
  { assistant := OllamaAssistant.new model_name,
    colors_enabled := colors_enabled,
    cout := "",
    requests := [],
    headers_freed := false }

/-- The text of `printHelp`. -/
def printHelp (w : World) : World :=
  w.print ("\n" ++ w.colorize "=== 🦙 Ollama Terminal Assistant ===" (ColorUtils.BOLD ++ ColorUtils.MAGENTA) ++ endl
    ++ w.colorize "Available Commands:" (ColorUtils.BOLD ++ ColorUtils.CYAN) ++ endl
    ++ w.colorize "  /help" ColorUtils.YELLOW ++ "     - Show this help message" ++ endl
    ++ w.colorize "  /clear" ColorUtils.YELLOW ++ "    - Clear conversation history" ++ endl
    ++ w.colorize "  /history" ColorUtils.YELLOW ++ "  - Show conversation history" ++ endl
    ++ w.colorize "  /models" ColorUtils.YELLOW ++ "   - List available models" ++ endl
    ++ w.colorize "  /model" ColorUtils.YELLOW ++ "    - Change current model" ++ endl
    ++ w.colorize "  /status" ColorUtils.YELLOW ++ "   - Check Ollama connection" ++ endl
    ++ w.colorize "  /quit" ColorUtils.YELLOW ++ "     - Exit the application" ++ endl
    ++ w.colorize "  /exit" ColorUtils.YELLOW ++ "     - Exit the application" ++ endl
    ++ "\n" ++ w.colorize "💡 Just type your message and press Enter to chat!" ColorUtils.GREEN ++ endl
    ++ w.colorize "   Ask programming questions, get help, or have a conversation!" ColorUtils.DIM ++ endl
    ++ w.colorize "   Current model: " ColorUtils.DIM
    ++ w.colorize w.assistant.getCurrentModel (ColorUtils.BOLD ++ ColorUtils.CYAN) ++ endl
    ++ w.colorize "================================" ColorUtils.MAGENTA ++ "\n" ++ endl)

/-- The text of `printWelcome`. -/
def printWelcome (w : World) : World :=
  w.print (w.colorize "🦙 Ollama Terminal Assistant" (ColorUtils.BOLD ++ ColorUtils.MAGENTA) ++ endl
    ++ w.colorize "✨ Your FREE local AI assistant - No API keys needed!" ColorUtils.CYAN ++ endl
    ++ w.colorize "🚀 Running locally with model: " ColorUtils.GREEN
    ++ w.colorize w.assistant.getCurrentModel (ColorUtils.BOLD ++ ColorUtils.CYAN) ++ endl
    ++ w.colorize "Type '/help' for commands or start chatting!" ColorUtils.GREEN ++ endl
    ++ w.colorize "========================================" ColorUtils.MAGENTA ++ "\n" ++ endl)

/-- The prompt of `getInput`; the line read is part of the event. -/
def getInput (w : World) : World :=
  w.print (w.colorize "👤 You: " (ColorUtils.BOLD ++ ColorUtils.BLUE))

/-- The text of `showThinking`: the label and three dots. -/
def showThinking (w : World) : World :=
  w.print (w.colorize "🦙 Thinking" ColorUtils.YELLOW
    ++ w.colorize "." ColorUtils.YELLOW ++ w.colorize "." ColorUtils.YELLOW ++ w.colorize "." ColorUtils.YELLOW)

/-- The text of `clearThinking`. -/
def clearThinking (w : World) : World :=
  w.print ("\r" ++ String.mk (List.replicate 15 ' ') ++ "\r")

/-- The method `isCommand`. -/
def isCommand (input : String) : Bool :=
  !input.isEmpty && input.toList.head? = some '/'

/-- The numbered lines of the model list, from index `i` on. -/
def modelLines (w : World) : List String → Nat → String
  | [], _ => ""
  | model :: rest, i =>
    let marker := if model = w.assistant.getCurrentModel then "➤ " else "  "
    let color := if model = w.assistant.getCurrentModel then ColorUtils.BOLD ++ ColorUtils.GREEN else ColorUtils.WHITE
    w.colorize (marker ++ toString (i + 1) ++ ". " ++ model) color ++ endl ++ modelLines w rest (i + 1)

/-- The method `showAvailableModels`; the Boolean tells whether the call
returned. -/
def showAvailableModels (parse : String → Except String Json) (w : World) (tags : CurlResult) :
    World × Bool :=
  let w1 := w.print (w.colorize "🔍 Fetching available models..." ColorUtils.YELLOW ++ endl)
  let listing := OllamaAssistant.getAvailableModels parse w1 tags
  let w2 := listing.1
  match listing.2 with
  | none => (w2, false)
  | some models =>
    let w3 :=
      if models.isEmpty then
        w2.print (w2.colorize "❌ No models found. Install a model first:" ColorUtils.RED ++ endl
          ++ w2.colorize "   ollama pull llama3.2" ColorUtils.CYAN ++ endl
          ++ w2.colorize "   ollama pull codellama" ColorUtils.CYAN ++ endl)
      else
        w2.print (w2.colorize "📋 Available Models:" (ColorUtils.BOLD ++ ColorUtils.CYAN) ++ endl
          ++ modelLines w2 models 0)
    (w3.print endl, true)

/-- The rest of `changeModel` once the listing has returned `models`. -/
def changeModelWith (w1 : World) (models : List String) (selection : String) : World :=
  if models.isEmpty then
    w1.print (w1.colorize "❌ No models available. Install one first:" ColorUtils.RED ++ endl
      ++ w1.colorize "   ollama pull llama3.2" ColorUtils.CYAN ++ endl)
  else
    let w2 := w1.print (w1.colorize "📋 Available Models:" (ColorUtils.BOLD ++ ColorUtils.CYAN) ++ endl
      ++ modelLines w1 models 0
      ++ w1.colorize "Enter model number (or press Enter to cancel): " ColorUtils.YELLOW)
    let input := selection
    if input.isEmpty then w2
    else
      let w3 :=
        match stoi input with
        | .ok choice =>
          if choice ≥ 1 ∧ choice ≤ static_cast_int models.length then
            OllamaAssistant.setModel w2 (models.getD (choice - 1).toNat "")
          else
            w2.print (w2.colorize "❌ Invalid choice!" ColorUtils.RED ++ endl)
        | .error _ =>
          w2.print (w2.colorize "❌ Invalid input!" ColorUtils.RED ++ endl)
      w3.print endl

/-- The method `changeModel`; the Boolean tells whether the call returned. -/
def changeModel (parse : String → Except String Json) (w : World) (tags : CurlResult)
    (selection : String) : World × Bool :=
  let listing := OllamaAssistant.getAvailableModels parse w tags
  match listing.2 with
  | none => (listing.1, false)
  | some models => (changeModelWith listing.1 models selection, true)

/-- The method `checkStatus`. -/
def checkStatus (w : World) (probe : Option CurlResult) : World :=
  let w1 := w.print (w.colorize "🔍 Checking Ollama connection..." ColorUtils.YELLOW ++ endl)
  let checked := OllamaAssistant.checkOllamaConnection w1 probe
  let w2 := checked.1
  let connected := checked.2
  let w3 :=
    if connected then
      w2.print (w2.colorize "✅ Ollama is running and accessible!" ColorUtils.GREEN ++ endl
        ++ w2.colorize "📡 Server: http://localhost:11434" ColorUtils.CYAN ++ endl
        ++ w2.colorize "🤖 Current model: " ColorUtils.CYAN
        ++ w2.colorize w2.assistant.getCurrentModel (ColorUtils.BOLD ++ ColorUtils.GREEN) ++ endl)
    else
      w2.print (w2.colorize "❌ Cannot connect to Ollama!" ColorUtils.RED ++ endl
        ++ w2.colorize "💡 Make sure Ollama is running:" ColorUtils.YELLOW ++ endl
        ++ w2.colorize "   ollama serve" ColorUtils.CYAN ++ endl)
  w3.print endl

/-- The notice printed by the last branch of `handleCommand`. -/
def unknownCommandNotice (w : World) (command : String) : String :=
  w.colorize "❌ Unknown command: " ColorUtils.RED ++ command ++ endl
    ++ w.colorize "💡 Type '/help' for available commands." ColorUtils.YELLOW ++ "\n" ++ endl

/-- The method `handleCommand`; the Boolean is its return value, and `none`
stands for a call that did not return. -/
def handleCommand (parse : String → Except String Json) (w : World) (command : String) (e : Event) :
    World × Option Bool :=
  if command = "/help" then (printHelp w, some true)
  else if command = "/clear" then (OllamaAssistant.clearConversation w, some true)
  else if command = "/history" then (OllamaAssistant.showConversationHistory w, some true)
  else if command = "/models" then
    ((showAvailableModels parse w e.tags).1,
     if (showAvailableModels parse w e.tags).2 then some true else none)
  else if command = "/model" then
    ((changeModel parse w e.tags e.selection).1,
     if (changeModel parse w e.tags e.selection).2 then some true else none)
  else if command = "/status" then (checkStatus w e.probe, some true)
  else if command = "/quit" ∨ command = "/exit" then
    (w.print (w.colorize "👋 Goodbye! Thanks for using Ollama Terminal Assistant!" ColorUtils.GREEN ++ endl),
     some false)
  else (w.print (unknownCommandNotice w command), some true)

/-- The method `initializeConnection`. -/
def initializeConnection (w : World) (probe : Option CurlResult) : World × Bool :=
  let w1 := w.print (w.colorize "🔍 Checking Ollama connection..." ColorUtils.YELLOW ++ endl)
  let checked := OllamaAssistant.checkOllamaConnection w1 probe
  let w2 := checked.1
  let connected := checked.2
  if !connected then
    (w2.print (w2.colorize "❌ Cannot connect to Ollama!" ColorUtils.RED ++ endl
      ++ w2.colorize "💡 Please make sure Ollama is running:" ColorUtils.YELLOW ++ endl
      ++ w2.colorize "   ollama serve" (ColorUtils.BOLD ++ ColorUtils.CYAN) ++ endl
      ++ w2.colorize "   Then run this program again." ColorUtils.YELLOW ++ endl), false)
  else
    (w2.print (w2.colorize "✅ Connected to Ollama successfully!" ColorUtils.GREEN ++ endl), true)

/-- One iteration of the `while (true)` loop of `run`: the world after it and
whether the loop goes on (`AwaitingInput`), was left by `break` (`Stopped`) or
ended in undefined behaviour (`Crashed`). -/
def step (parse : String → Except String Json) (w : World) (e : Event) : World × LoopState :=
  let w1 := getInput w
  let input := e.line
  if input.isEmpty then (w1, .AwaitingInput)
  else if isCommand input then
    match handleCommand parse w1 input e with
    | (w2, some false) => (w2, .Stopped)
    | (w2, some true) => (w2, .AwaitingInput)
    | (w2, none) => (w2, .Crashed)
  else
    let w2 := showThinking w1
    match OllamaAssistant.sendMessage parse w2 input e.chat with
    | (w3, .ok response) =>
      let w4 := clearThinking w3
      (w4.print (w4.colorize "🦙 Ollama: " (ColorUtils.BOLD ++ ColorUtils.GREEN) ++ response ++ "\n" ++ endl),
       .AwaitingInput)
    | (w3, .error what) =>
      let w4 := clearThinking w3
      (w4.print (w4.colorize "❌ Error: " (ColorUtils.BOLD ++ ColorUtils.RED) ++ what ++ "\n" ++ endl),
       .AwaitingInput)

/-- The loop of `run` over the events the outside world supplies, until it
stops, the process ends or the events run out. -/
def loop (parse : String → Except String Json) : World → List Event → World × LoopState
  | w, [] => (w, .AwaitingInput)
  | w, e :: rest =>
    match step parse w e with
    | (w1, .Stopped) => (w1, .Stopped)
    | (w1, .Crashed) => (w1, .Crashed)
    | (w1, .AwaitingInput) => loop parse w1 rest

/-- The method `run`: the startup probe, the welcome text, then the loop. The
result is the world when `run` returns, when the process ends or, if the
events run out first, when the loop waits for the next line. -/
def run (parse : String → Except String Json) (w : World) (probe : Option CurlResult)
    (events : List Event) : World :=
  let started := initializeConnection w probe
  if !started.2 then started.1
  else (loop parse (printWelcome started.1) events).1

end TerminalInterface

/-! ## Sequences of method calls, the invariant and the examples -/

/-- A call of one of the public methods of `OllamaAssistant`, with what the
outside world answers to it. -/
inductive SessionOp where
  | sendMessage (message : String) (res : CurlResult) : SessionOp
  | clearConversation : SessionOp
  | setModel (model : String) : SessionOp
  | getAvailableModels (res : CurlResult) : SessionOp
  | checkOllamaConnection (probe : Option CurlResult) : SessionOp
  | showConversationHistory : SessionOp

/-- The world after one method call. -/
def SessionOp.apply (parse : String → Except String Json) (w : World) : SessionOp → World
  | .sendMessage message res => (OllamaAssistant.sendMessage parse w message res).1
  | .clearConversation => OllamaAssistant.clearConversation w
  | .setModel model => OllamaAssistant.setModel w model
  | .getAvailableModels res => (OllamaAssistant.getAvailableModels parse w res).1
  | .checkOllamaConnection probe => (OllamaAssistant.checkOllamaConnection w probe).1
  | .showConversationHistory => OllamaAssistant.showConversationHistory w

/-- Whether a method call returns: only a listing on a handle whose header
option points at a freed list does not. -/
def SessionOp.returns (w : World) : SessionOp → Bool
  | .getAvailableModels _ => !w.headers_freed
  | _ => true

/-- The world after a sequence of method calls; a call that does not return
ends the sequence. -/
def applyOps (parse : String → Except String Json) : World → List SessionOp → World
  | w, [] => w
  | w, op :: ops =>
    if op.returns w then applyOps parse (op.apply parse w) ops else op.apply parse w

/-- The specification's count of the messages appended since the last reset,
kept next to the code while it runs the calls: a reset sets it to 0, a chat
turn appends the user message and, when `sendMessage` returns a reply, the
assistant message, and no other call appends; a call that does not return
ends the sequence. The count starts at `n`. -/
def appendedSinceReset (parse : String → Except String Json) : World → Nat → List SessionOp → Nat
  | _, n, [] => n
  | w, n, op :: ops =>
    if op.returns w then
      appendedSinceReset parse (op.apply parse w)
        (match op with
          | .sendMessage message res =>
            match (OllamaAssistant.sendMessage parse w message res).2 with
            | .ok _ => n + 2
            | .error _ => n + 1
          | .clearConversation => 0
          | _ => n)
        ops
    else n

/-- The history starts with the system message and holds no other message of
role system. -/
def SystemFirst (history : List Message) : Prop :=
  ∃ rest, history = systemMessage :: rest ∧ ∀ m ∈ rest, m.role ≠ "system"

/-- A response body holding a reply: the object with a message of role
assistant and content "Hi there". -/
def replyBody : String :=
  "\x7b\"message\":\x7b\"role\":\"assistant\",\"content\":\"Hi there\"\x7d\x7d"

/-- A response body whose error field is the number 42. -/
def errorNumberBody : String :=
  "\x7b\"error\":42\x7d"

/-- A response body with a text error field and a message content. -/
def errorTextBody : String :=
  "\x7b\"error\":\"model not found\",\"message\":\x7b\"content\":\"x\"\x7d\x7d"

/-- A response body whose message has no content. -/
def noContentBody : String :=
  "\x7b\"message\":\x7b\"role\":\"assistant\"\x7d\x7d"

/-- A parser for the examples: it gives the four bodies above the values
`json::parse` gives them and rejects every other text. -/
def sampleParse (s : String) : Except String Json :=
  if s = replyBody then
    .ok (.obj [("message", .obj [("role", .str "assistant"), ("content", .str "Hi there")])])
  else if s = errorNumberBody then .ok (.obj [("error", .num 42)])
  else if s = errorTextBody then
    .ok (.obj [("error", .str "model not found"), ("message", .obj [("content", .str "x")])])
  else if s = noContentBody then .ok (.obj [("message", .obj [("role", .str "assistant")])])
  else .error "[json.exception.parse_error.101] parse error"

/-- A listing body with three models. -/
def threeModelsBody : String :=
  "\x7b\"models\":[\x7b\"name\":\"llama3.2\"\x7d,\x7b\"name\":\"codellama\"\x7d,\x7b\"name\":\"phi3:mini\"\x7d]\x7d"

/-- A listing body whose second entry has the number 5 for a name. -/
def numberNameBody : String :=
  "\x7b\"models\":[\x7b\"name\":\"llama3.2\"\x7d,\x7b\"name\":5\x7d,\x7b\"name\":\"phi3:mini\"\x7d]\x7d"

/-- A parser for the listing examples: it gives the two bodies above the
values `json::parse` gives them and rejects every other text. -/
def listingParse (s : String) : Except String Json :=
  if s = threeModelsBody then
    .ok (.obj [("models", .arr [.obj [("name", .str "llama3.2")], .obj [("name", .str "codellama")],
      .obj [("name", .str "phi3:mini")]])])
  else if s = numberNameBody then
    .ok (.obj [("models", .arr [.obj [("name", .str "llama3.2")], .obj [("name", .num 5)],
      .obj [("name", .str "phi3:mini")]])])
  else .error "[json.exception.parse_error.101] parse error"

/-! # Theorems -/

open TerminalInterface OllamaAssistant

/-! ## Lemmas on the history length -/

theorem length_append_history (a : OllamaAssistant) (extra : List Message)
    (hne : 1 ≤ a.conversation_history.length)
    (hsz : a.conversation_history.length + extra.length ≤ 2 ^ 64) :
    getConversationLength { a with conversation_history := a.conversation_history ++ extra }
      = getConversationLength a + extra.length := by
  simp only [getConversationLength, List.length_append]
  have h1 : (a.conversation_history.length + extra.length + 2 ^ 64 - 1)
      = (a.conversation_history.length + extra.length - 1) + 2 ^ 64 := by omega
  have h2 : (a.conversation_history.length + 2 ^ 64 - 1)
      = (a.conversation_history.length - 1) + 2 ^ 64 := by omega
  rw [h1, h2, Nat.add_mod_right, Nat.add_mod_right, Nat.mod_eq_of_lt (by omega), Nat.mod_eq_of_lt (by omega)]
  omega

theorem length_of_cons (a : OllamaAssistant) (first : Message) (rest : List Message)
    (h : a.conversation_history = first :: rest) (hsz : a.conversation_history.length ≤ 2 ^ 64) :
    getConversationLength a = rest.length := by
  unfold getConversationLength
  rw [h] at hsz ⊢
  simp only [List.length_cons] at hsz ⊢
  have h1 : rest.length + 1 + 2 ^ 64 - 1 = rest.length + 2 ^ 64 := by omega
  rw [h1, Nat.add_mod_right, Nat.mod_eq_of_lt (by omega)]

/-! ## What each method leaves unchanged -/

@[simp]
theorem print_assistant (w : World) (t : String) : (w.print t).assistant = w.assistant := rfl

@[simp]
theorem print_requests (w : World) (t : String) : (w.print t).requests = w.requests := rfl

@[simp]
theorem print_cout (w : World) (t : String) : (w.print t).cout = w.cout ++ t := rfl

@[simp]
theorem print_colors (w : World) (t : String) : (w.print t).colors_enabled = w.colors_enabled := rfl

@[simp]
theorem print_headers_freed (w : World) (t : String) : (w.print t).headers_freed = w.headers_freed := rfl

theorem getAvailableModels_returns (parse : String → Except String Json) (w : World)
    (res : CurlResult) :
    (getAvailableModels parse w res).2 = none ↔ w.headers_freed = true := by
  unfold getAvailableModels
  by_cases h : w.headers_freed = true
  · simp [h]
  · simp only [h, Bool.false_eq_true, if_false, iff_false]
    repeat' split
    all_goals simp

@[simp]
theorem getAvailableModels_assistant (parse : String → Except String Json) (w : World)
    (res : CurlResult) : (getAvailableModels parse w res).1.assistant = w.assistant := by
  unfold getAvailableModels
  repeat' split
  all_goals rfl

@[simp]
theorem checkOllamaConnection_assistant (w : World) (probe : Option CurlResult) :
    (checkOllamaConnection w probe).1.assistant = w.assistant := by
  cases probe <;> rfl

@[simp]
theorem showConversationHistory_assistant (w : World) :
    (showConversationHistory w).assistant = w.assistant := by
  unfold showConversationHistory
  simp only [print_assistant]
  split <;> rfl

@[simp]
theorem printHelp_assistant (w : World) : (printHelp w).assistant = w.assistant := rfl

@[simp]
theorem showAvailableModels_assistant (parse : String → Except String Json) (w : World)
    (tags : CurlResult) : (showAvailableModels parse w tags).1.assistant = w.assistant := by
  unfold showAvailableModels
  dsimp only
  split
  · simp
  · dsimp only
    split_ifs <;> simp

theorem showAvailableModels_returns (parse : String → Except String Json) (w : World)
    (tags : CurlResult) :
    (showAvailableModels parse w tags).2 = !w.headers_freed := by
  have h := getAvailableModels_returns parse
    (w.print (w.colorize "🔍 Fetching available models..." ColorUtils.YELLOW ++ endl)) tags
  unfold showAvailableModels
  dsimp only
  split
  · rename_i heq
    have hf : w.headers_freed = true := h.mp heq
    simp [hf]
  · rename_i models heq
    cases hf : w.headers_freed with
    | false => rfl
    | true =>
      rw [h.mpr hf] at heq
      cases heq

@[simp]
theorem checkStatus_assistant (w : World) (probe : Option CurlResult) :
    (checkStatus w probe).assistant = w.assistant := by
  unfold checkStatus
  simp only [print_assistant]
  split <;> simp

@[simp]
theorem setModel_history (w : World) (model : String) :
    (setModel w model).assistant.conversation_history = w.assistant.conversation_history := rfl

@[simp]
theorem setModel_model (w : World) (model : String) :
    (setModel w model).assistant.model_name = model := rfl

@[simp]
theorem clearConversation_history (w : World) :
    (clearConversation w).assistant.conversation_history = [systemMessage] := rfl

@[simp]
theorem clearConversation_model (w : World) :
    (clearConversation w).assistant.model_name = w.assistant.model_name := rfl

@[simp]
theorem changeModelWith_history (w : World) (models : List String) (selection : String) :
    (changeModelWith w models selection).assistant.conversation_history
      = w.assistant.conversation_history := by
  unfold changeModelWith
  dsimp only
  split_ifs
  · simp
  · simp
  · cases stoi selection with
    | ok choice => dsimp only; split_ifs <;> simp
    | error _ => simp

@[simp]
theorem changeModel_history (parse : String → Except String Json) (w : World)
    (tags : CurlResult) (selection : String) :
    (changeModel parse w tags selection).1.assistant.conversation_history
      = w.assistant.conversation_history := by
  unfold changeModel
  dsimp only
  split <;> simp

theorem changeModel_returns (parse : String → Except String Json) (w : World)
    (tags : CurlResult) (selection : String) :
    (changeModel parse w tags selection).2 = !w.headers_freed := by
  have h := getAvailableModels_returns parse w tags
  unfold changeModel
  dsimp only
  split
  · rename_i heq
    simp [h.mp heq]
  · rename_i models heq
    cases hf : w.headers_freed with
    | false => rfl
    | true =>
      rw [h.mpr hf] at heq
      cases heq

theorem handleCommand_history (parse : String → Except String Json) (w : World)
    (command : String) (e : Event) :
    (handleCommand parse w command e).1.assistant.conversation_history
      = if command = "/clear" then [systemMessage] else w.assistant.conversation_history := by
  unfold handleCommand
  repeat' split
  all_goals simp_all

/-! ## The history after each method -/

theorem sendMessage_history_eq (parse : String → Except String Json) (w : World) (m : String)
    (res : CurlResult) :
    (sendMessage parse w m res).1.assistant.conversation_history
      = w.assistant.conversation_history ++ { role := "user", content := m } ::
          (match (sendMessage parse w m res).2 with
            | .ok reply => [{ role := "assistant", content := reply }]
            | .error _ => []) := by
  cases res with
  | failed strerror => simp [sendMessage]
  | ok code data =>
    by_cases hc : code = 200
    · subst hc
      cases hx : extractReply parse data with
      | ok r => simp [sendMessage, hx]
      | error ex => cases ex <;> simp [sendMessage, hx]
    · simp [sendMessage, hc]

@[simp]
theorem sendMessage_model (parse : String → Except String Json) (w : World) (m : String)
    (res : CurlResult) :
    (sendMessage parse w m res).1.assistant.model_name = w.assistant.model_name := by
  cases res with
  | failed strerror => simp [sendMessage]
  | ok code data =>
    by_cases hc : code = 200
    · subst hc
      cases hx : extractReply parse data with
      | ok r => simp [sendMessage, hx]
      | error ex => cases ex <;> simp [sendMessage, hx]
    · simp [sendMessage, hc]

theorem systemFirst_append (history extra : List Message) (h : SystemFirst history)
    (hx : ∀ m ∈ extra, m.role ≠ "system") : SystemFirst (history ++ extra) := by
  obtain ⟨rest, hr, hn⟩ := h
  refine ⟨rest ++ extra, by simp [hr], ?_⟩
  intro m hm
  rcases List.mem_append.mp hm with h1 | h1
  · exact hn m h1
  · exact hx m h1

theorem systemFirst_initial : SystemFirst [systemMessage] :=
  ⟨[], rfl, by simp⟩

theorem sendMessage_systemFirst (parse : String → Except String Json) (w : World) (m : String)
    (res : CurlResult) (h : SystemFirst w.assistant.conversation_history) :
    SystemFirst (sendMessage parse w m res).1.assistant.conversation_history := by
  rw [sendMessage_history_eq]
  apply systemFirst_append _ _ h
  intro x hx
  cases hr : (sendMessage parse w m res).2 with
  | ok reply =>
    rw [hr] at hx
    simp at hx
    rcases hx with rfl | rfl <;> simp
  | error what =>
    rw [hr] at hx
    simp at hx
    subst hx
    simp

theorem step_history (parse : String → Except String Json) (w : World) (e : Event) :
    (step parse w e).1.assistant.conversation_history
      = if e.line.isEmpty then w.assistant.conversation_history
        else if isCommand e.line then
          (if e.line = "/clear" then [systemMessage] else w.assistant.conversation_history)
        else (sendMessage parse (showThinking (getInput w)) e.line e.chat).1.assistant.conversation_history := by
  unfold step
  dsimp only
  split_ifs with h1 h2 h3
  · rfl
  · have := handleCommand_history parse (getInput w) e.line e
    simp only [h3, if_true] at this
    split <;> simp_all
  · have := handleCommand_history parse (getInput w) e.line e
    simp only [h3, if_false] at this
    split <;> simp_all [getInput]
  · split <;> simp_all [clearThinking]

theorem step_systemFirst (parse : String → Except String Json) (w : World) (e : Event)
    (h : SystemFirst w.assistant.conversation_history) :
    SystemFirst (step parse w e).1.assistant.conversation_history := by
  rw [step_history]
  split_ifs
  · exact h
  · exact systemFirst_initial
  · exact h
  · exact sendMessage_systemFirst parse _ _ _ h

theorem loop_systemFirst (parse : String → Except String Json) (events : List Event) :
    ∀ w : World, SystemFirst w.assistant.conversation_history →
      SystemFirst (loop parse w events).1.assistant.conversation_history := by
  induction events with
  | nil => intro w h; exact h
  | cons e rest ih =>
    intro w h
    have hs := step_systemFirst parse w e h
    unfold loop
    split
    · rename_i w1 heq
      rw [heq] at hs
      exact hs
    · rename_i w1 heq
      rw [heq] at hs
      exact hs
    · rename_i w1 heq
      rw [heq] at hs
      exact ih w1 hs

@[simp]
theorem initializeConnection_assistant (w : World) (probe : Option CurlResult) :
    (initializeConnection w probe).1.assistant = w.assistant := by
  unfold initializeConnection
  dsimp only
  split_ifs <;> simp

theorem run_systemFirst (parse : String → Except String Json) (w : World)
    (probe : Option CurlResult) (events : List Event)
    (h : SystemFirst w.assistant.conversation_history) :
    SystemFirst (run parse w probe events).assistant.conversation_history := by
  unfold run
  dsimp only
  split_ifs
  · simpa using h
  · apply loop_systemFirst
    simpa [printWelcome] using h

/-! ## Sequences of method calls -/

theorem applyOps_cons (parse : String → Except String Json) (w : World) (op : SessionOp)
    (ops : List SessionOp) :
    applyOps parse w (op :: ops)
      = if op.returns w then applyOps parse (op.apply parse w) ops else op.apply parse w := rfl

theorem applyOps_count (parse : String → Except String Json) (ops : List SessionOp) :
    ∀ (w : World) (rest : List Message) (n : Nat),
      w.assistant.conversation_history = systemMessage :: rest → n = rest.length →
      (∀ m ∈ rest, m.role ≠ "system") →
      ∃ rest', (applyOps parse w ops).assistant.conversation_history = systemMessage :: rest'
        ∧ appendedSinceReset parse w n ops = rest'.length
        ∧ ∀ m ∈ rest', m.role ≠ "system" := by
  induction ops with
  | nil =>
    intro w rest n hw hn hr
    exact ⟨rest, hw, hn, hr⟩
  | cons op ops ih =>
    intro w rest n hw hn hr
    rw [applyOps_cons]
    unfold appendedSinceReset
    cases op with
    | getAvailableModels res =>
      cases hf : w.headers_freed with
      | false =>
        simp only [SessionOp.returns, hf, Bool.not_false, if_true]
        exact ih _ rest n (by simpa [SessionOp.apply] using hw) hn hr
      | true =>
        simp only [SessionOp.returns, hf, Bool.not_true, Bool.false_eq_true, if_false]
        exact ⟨rest, by simpa [SessionOp.apply] using hw, hn, hr⟩
    | sendMessage message res =>
      simp only [SessionOp.returns, if_true]
      have hh := sendMessage_history_eq parse w message res
      cases hres : (sendMessage parse w message res).2 with
      | ok reply =>
        rw [hres] at hh
        apply ih _ (rest ++ [{ role := "user", content := message }, { role := "assistant", content := reply }])
        · simp [SessionOp.apply, hh, hw]
        · simp [hn, hres]
        · intro m hm
          simp only [List.mem_append, List.mem_cons, List.mem_singleton, List.not_mem_nil, or_false] at hm
          rcases hm with h1 | rfl | rfl
          · exact hr m h1
          · simp
          · simp
      | error what =>
        rw [hres] at hh
        apply ih _ (rest ++ [{ role := "user", content := message }])
        · simp [SessionOp.apply, hh, hw]
        · simp [hn, hres]
        · intro m hm
          simp only [List.mem_append, List.mem_singleton] at hm
          rcases hm with h1 | rfl
          · exact hr m h1
          · simp
    | clearConversation =>
      simp only [SessionOp.returns, if_true]
      apply ih _ []
      · simp [SessionOp.apply]
      · rfl
      · simp
    | setModel model =>
      simp only [SessionOp.returns, if_true]
      exact ih _ rest n (by simpa [SessionOp.apply] using hw) hn hr
    | checkOllamaConnection probe =>
      simp only [SessionOp.returns, if_true]
      exact ih _ rest n (by simpa [SessionOp.apply] using hw) hn hr
    | showConversationHistory =>
      simp only [SessionOp.returns, if_true]
      exact ih _ rest n (by simpa [SessionOp.apply] using hw) hn hr

theorem filter_non_system (rest : List Message) (h : ∀ m ∈ rest, m.role ≠ "system") :
    (systemMessage :: rest).filter (fun m => decide (m.role ≠ "system")) = rest := by
  have h1 : decide (systemMessage.role ≠ "system") = false := by decide
  rw [List.filter_cons_of_neg (by simp [h1])]
  apply List.filter_eq_self.mpr
  intro m hm
  simpa using h m hm

/-! ## The claims -/

/-- C1. A chat turn appends the user message and nothing else when it fails,
and the user message followed by the assistant reply when it succeeds; the
conversation length grows by 1 and by 2. A transport failure, a status other
than 200 and a body that does not parse are failures (an error field and a
missing message or content are the matter of C7 and C8). The history is
non-empty (as in every reachable state) and its size fits `size_t`. -/
theorem sendMessage_appends (parse : String → Except String Json) (w : World) (m : String)
    (res : CurlResult)
    (hne : 1 ≤ w.assistant.conversation_history.length)
    (hsz : w.assistant.conversation_history.length + 2 ≤ 2 ^ 64) :
    (∀ what, (sendMessage parse w m res).2 = .error what →
      (sendMessage parse w m res).1.assistant.conversation_history
          = w.assistant.conversation_history ++ [{ role := "user", content := m }]
        ∧ (sendMessage parse w m res).1.assistant.getConversationLength
          = w.assistant.getConversationLength + 1)
    ∧ (∀ reply, (sendMessage parse w m res).2 = .ok reply →
      (sendMessage parse w m res).1.assistant.conversation_history
          = w.assistant.conversation_history
              ++ [{ role := "user", content := m }, { role := "assistant", content := reply }]
        ∧ (sendMessage parse w m res).1.assistant.getConversationLength
          = w.assistant.getConversationLength + 2)
    ∧ (∀ strerror, res = .failed strerror → ∃ what, (sendMessage parse w m res).2 = .error what)
    ∧ (∀ code data, res = .ok code data → code ≠ 200 →
        ∃ what, (sendMessage parse w m res).2 = .error what)
    ∧ (∀ data what, res = .ok 200 data → parse data = .error what →
        (sendMessage parse w m res).2 = .error ("JSON parsing error: " ++ what)) := by
  have e1 := length_append_history w.assistant [{ role := "user", content := m }] hne (by simp; omega)
  have e2 : ∀ reply, _ := fun reply =>
    length_append_history w.assistant
      [{ role := "user", content := m }, { role := "assistant", content := reply }] hne (by simp; omega)
  refine ⟨?_, ?_, ?_, ?_, ?_⟩
  · cases res with
    | failed strerror => simp [sendMessage, e1]
    | ok code data =>
      by_cases hc : code = 200
      · subst hc
        cases hx : extractReply parse data with
        | ok r => simp [sendMessage, hx]
        | error ex => cases ex <;> simp [sendMessage, hx, e1]
      · simp [sendMessage, hc, e1]
  · cases res with
    | failed strerror => simp [sendMessage]
    | ok code data =>
      by_cases hc : code = 200
      · subst hc
        cases hx : extractReply parse data with
        | ok r => simp [sendMessage, hx]; simpa using e2 r
        | error ex => cases ex <;> simp [sendMessage, hx]
      · simp [sendMessage, hc]
  · intro strerror hres
    subst hres
    exact ⟨_, rfl⟩
  · intro code data hres hc
    subst hres
    simp [sendMessage, hc]
  · intro data what hres hp
    subst hres
    simp [sendMessage, extractReply, hp]

/-- Witness of C1: in a fresh session "Hello" answered by "Hi there" leaves the
history system, user "Hello", assistant "Hi there", of length 2. -/
theorem sendMessage_appends_witness :
    (sendMessage sampleParse (TerminalInterface.new "llama3.2" false) "Hello" (.ok 200 replyBody)).2
        = .ok "Hi there"
      ∧ (sendMessage sampleParse (TerminalInterface.new "llama3.2" false) "Hello"
          (.ok 200 replyBody)).1.assistant.conversation_history
        = [systemMessage, { role := "user", content := "Hello" },
            { role := "assistant", content := "Hi there" }]
      ∧ (sendMessage sampleParse (TerminalInterface.new "llama3.2" false) "Hello"
          (.ok 200 replyBody)).1.assistant.getConversationLength = 2 := by
  have hr : (sendMessage sampleParse (TerminalInterface.new "llama3.2" false) "Hello" (.ok 200 replyBody)).2
      = .ok "Hi there" := by rfl
  have h := (sendMessage_appends sampleParse (TerminalInterface.new "llama3.2" false) "Hello"
    (.ok 200 replyBody) (by decide) (by decide)).2.1 "Hi there" hr
  exact ⟨hr, h.1, h.2⟩

/-- C2. In every state the program reaches from construction, by any run of
the dispatch loop and by any sequence of method calls, the history is the
system message followed by messages none of which has role system. -/
theorem history_system_first (parse : String → Except String Json) (model_name : String)
    (colors_enabled : Bool) (probe : Option CurlResult) (events : List Event)
    (ops : List SessionOp) :
    SystemFirst (run parse (TerminalInterface.new model_name colors_enabled) probe
        events).assistant.conversation_history
      ∧ SystemFirst (applyOps parse (TerminalInterface.new model_name colors_enabled)
        ops).assistant.conversation_history := by
  constructor
  · exact run_systemFirst parse _ probe events systemFirst_initial
  · obtain ⟨rest, h1, _, h3⟩ :=
      applyOps_count parse ops (TerminalInterface.new model_name colors_enabled) [] 0 rfl rfl (by simp)
    exact ⟨rest, h1, h3⟩

/-- C3. After any sequence of method calls on a fresh session, the
conversation length is the number of messages appended since the last reset;
it is the number of non-system messages in the history and the history size
less one. The history size fits `size_t`. -/
theorem getConversationLength_counts (parse : String → Except String Json) (model_name : String)
    (colors_enabled : Bool) (ops : List SessionOp)
    (hsz : (applyOps parse (TerminalInterface.new model_name colors_enabled)
      ops).assistant.conversation_history.length ≤ 2 ^ 64) :
    (applyOps parse (TerminalInterface.new model_name colors_enabled) ops).assistant.getConversationLength
        = appendedSinceReset parse (TerminalInterface.new model_name colors_enabled) 0 ops
      ∧ (applyOps parse (TerminalInterface.new model_name colors_enabled) ops).assistant.getConversationLength
        = ((applyOps parse (TerminalInterface.new model_name colors_enabled)
            ops).assistant.conversation_history.filter (fun m => decide (m.role ≠ "system"))).length
      ∧ (applyOps parse (TerminalInterface.new model_name colors_enabled) ops).assistant.getConversationLength + 1
        = (applyOps parse (TerminalInterface.new model_name colors_enabled)
            ops).assistant.conversation_history.length := by
  obtain ⟨rest, h1, h2, h3⟩ :=
    applyOps_count parse ops (TerminalInterface.new model_name colors_enabled) [] 0 rfl rfl (by simp)
  have hl := length_of_cons _ _ _ h1 hsz
  refine ⟨by rw [hl, h2], ?_, by rw [hl, h1]; rfl⟩
  rw [hl, h1, filter_non_system rest h3]

/-- Witness of C3: a successful turn, a failed turn, a reset and one more
failed turn leave the length 1. -/
theorem getConversationLength_counts_witness :
    (applyOps sampleParse (TerminalInterface.new "llama3.2" false)
        [.sendMessage "Hello" (.ok 200 replyBody), .sendMessage "again" (.failed "timeout"),
          .clearConversation, .sendMessage "more" (.ok 500 "")]).assistant.getConversationLength = 1
      ∧ appendedSinceReset sampleParse (TerminalInterface.new "llama3.2" false) 0
        [.sendMessage "Hello" (.ok 200 replyBody), .sendMessage "again" (.failed "timeout"),
          .clearConversation, .sendMessage "more" (.ok 500 "")] = 1 := by
  have hl : (applyOps sampleParse (TerminalInterface.new "llama3.2" false)
      [.sendMessage "Hello" (.ok 200 replyBody), .sendMessage "again" (.failed "timeout"),
        .clearConversation, .sendMessage "more" (.ok 500 "")]).assistant.conversation_history.length
      = 2 := by rfl
  have h := getConversationLength_counts sampleParse "llama3.2" false
    [.sendMessage "Hello" (.ok 200 replyBody), .sendMessage "again" (.failed "timeout"),
      .clearConversation, .sendMessage "more" (.ok 500 "")] (by rw [hl]; decide)
  have hc : appendedSinceReset sampleParse (TerminalInterface.new "llama3.2" false) 0
      [.sendMessage "Hello" (.ok 200 replyBody), .sendMessage "again" (.failed "timeout"),
        .clearConversation, .sendMessage "more" (.ok 500 "")] = 1 := by rfl
  exact ⟨h.1.trans hc, hc⟩

/-- C4. Whatever the history, `clearConversation` leaves exactly the system
message the constructor seeds, the conversation length 0 and the model name as
it was. -/
theorem clearConversation_resets (w : World) (model : String) :
    (clearConversation w).assistant.conversation_history = [systemMessage]
      ∧ (clearConversation w).assistant.conversation_history
        = (OllamaAssistant.new model).conversation_history
      ∧ (clearConversation w).assistant.getConversationLength = 0
      ∧ (clearConversation w).assistant.model_name = w.assistant.model_name :=
  ⟨rfl, rfl, length_of_cons _ systemMessage [] rfl Nat.one_le_two_pow, rfl⟩

theorem isCommand_iff_head (line : String) :
    isCommand line = true ↔ line.toList.head? = some '/' := by
  unfold isCommand
  constructor
  · intro h
    simp only [Bool.and_eq_true, decide_eq_true_eq] at h
    exact h.2
  · intro h
    have hne : line.isEmpty = false := by
      cases hi : line.isEmpty with
      | false => rfl
      | true =>
        rw [(String.isEmpty_iff line).mp hi] at h
        simp at h
    simp only [hne, Bool.not_false, Bool.true_and, decide_eq_true_eq]
    exact h

theorem handleCommand_return (parse : String → Except String Json) (w : World) (command : String)
    (e : Event) :
    (handleCommand parse w command e).2
      = if command = "/quit" ∨ command = "/exit" then some false
        else if w.headers_freed = true ∧ (command = "/models" ∨ command = "/model") then none
        else some true := by
  unfold handleCommand
  by_cases h1 : command = "/help"
  · subst h1; simp
  by_cases h2 : command = "/clear"
  · subst h2; simp
  by_cases h3 : command = "/history"
  · subst h3; simp
  by_cases h4 : command = "/models"
  · subst h4
    simp only [showAvailableModels_returns]
    cases w.headers_freed <;> simp
  by_cases h5 : command = "/model"
  · subst h5
    simp only [changeModel_returns]
    cases w.headers_freed <;> simp
  by_cases h6 : command = "/status"
  · subst h6; simp
  by_cases h7 : command = "/quit" ∨ command = "/exit"
  · simp [h1, h2, h3, h4, h5, h6, h7]
  · simp [h1, h2, h3, h4, h5, h6, h7]

theorem command_lines (line : String)
    (h : line = "/quit" ∨ line = "/exit" ∨ line = "/models" ∨ line = "/model") :
    line.isEmpty = false ∧ isCommand line = true := by
  rcases h with h | h | h | h <;> subst h <;> exact ⟨by rfl, by rfl⟩

theorem step_state (parse : String → Except String Json) (w : World) (e : Event) :
    (step parse w e).2
      = if e.line = "/quit" ∨ e.line = "/exit" then LoopState.Stopped
        else if w.headers_freed = true ∧ (e.line = "/models" ∨ e.line = "/model") then
          LoopState.Crashed
        else LoopState.AwaitingInput := by
  have hcl := command_lines e.line
  unfold step
  dsimp only
  by_cases he : e.line.isEmpty = true
  · have hq : ¬ (e.line = "/quit" ∨ e.line = "/exit") := by
      intro h
      have := (hcl (by tauto)).1
      simp [he] at this
    have hm : ¬ (e.line = "/models" ∨ e.line = "/model") := by
      intro h
      have := (hcl (by tauto)).1
      simp [he] at this
    simp [he, hq, hm]
  · by_cases hc : isCommand e.line = true
    · have h3 := handleCommand_return parse (getInput w) e.line e
      simp only [he, hc, if_true, Bool.false_eq_true, if_false]
      have hf : (getInput w).headers_freed = w.headers_freed := rfl
      rw [hf] at h3
      split
      · rename_i heq
        rw [heq] at h3
        by_cases hq : e.line = "/quit" ∨ e.line = "/exit"
        · simp [hq]
        · by_cases hm : w.headers_freed = true ∧ (e.line = "/models" ∨ e.line = "/model")
          · simp [hq, hm] at h3
          · simp [hq, hm] at h3
      · rename_i heq
        rw [heq] at h3
        by_cases hq : e.line = "/quit" ∨ e.line = "/exit"
        · simp [hq] at h3
        · by_cases hm : w.headers_freed = true ∧ (e.line = "/models" ∨ e.line = "/model")
          · simp [hq, hm] at h3
          · simp [hq, hm]
      · rename_i heq
        rw [heq] at h3
        by_cases hq : e.line = "/quit" ∨ e.line = "/exit"
        · simp [hq] at h3
        · by_cases hm : w.headers_freed = true ∧ (e.line = "/models" ∨ e.line = "/model")
          · simp [hq, hm]
          · simp [hq, hm] at h3
    · have hq : ¬ (e.line = "/quit" ∨ e.line = "/exit") := by
        intro h
        exact hc (hcl (by tauto)).2
      have hm : ¬ (e.line = "/models" ∨ e.line = "/model") := by
        intro h
        exact hc (hcl (by tauto)).2
      simp only [he, hc, hq, hm, if_false, and_false, Bool.false_eq_true]
      split <;> rfl

theorem loop_state (parse : String → Except String Json) (events : List Event) :
    ∀ w : World, (loop parse w events).2 = .Stopped
      → ∃ e ∈ events, e.line = "/quit" ∨ e.line = "/exit" := by
  induction events with
  | nil => intro w; simp [loop]
  | cons e rest ih =>
    intro w
    have hs := step_state parse w e
    unfold loop
    split
    · rename_i w1 heq
      rw [heq] at hs
      by_cases hq : e.line = "/quit" ∨ e.line = "/exit"
      · simp [hq]
      · intro _
        by_cases hm : w.headers_freed = true ∧ (e.line = "/models" ∨ e.line = "/model")
        · simp [hq, hm] at hs
        · simp [hq, hm] at hs
    · intro h
      cases h
    · rename_i w1 heq
      intro h
      obtain ⟨x, hx, hxq⟩ := ih w1 h
      exact ⟨x, List.mem_cons_of_mem _ hx, hxq⟩

/-! ## The claims on the exchange and on the dispatcher -/

/-- C6. A response whose status code is not 200 makes `sendMessage` throw,
whatever the body: the text of the error holds the status code, the raw body
and the advice to pull the current model; the history keeps the user message
only. -/
theorem sendMessage_non_200 (parse : String → Except String Json) (w : World) (m : String)
    (code : Int) (data : String) (hc : code ≠ 200) :
    (sendMessage parse w m (.ok code data)).2
        = .error ("Ollama API request failed with HTTP " ++ toString code ++ ": " ++ data
            ++ "\nMake sure the model '" ++ w.assistant.model_name ++ "' is installed: ollama pull "
            ++ w.assistant.model_name)
      ∧ (sendMessage parse w m (.ok code data)).1.assistant.conversation_history
        = w.assistant.conversation_history ++ [{ role := "user", content := m }] := by
  simp [sendMessage, hc]

/-- Witness of C6: status 404 with a body that would be a well-formed reply. -/
theorem sendMessage_non_200_witness :
    (sendMessage sampleParse (TerminalInterface.new "llama3.2" false) "Hello" (.ok 404 replyBody)).2
        = .error ("Ollama API request failed with HTTP 404: " ++ replyBody
            ++ "\nMake sure the model 'llama3.2' is installed: ollama pull llama3.2")
      ∧ (sendMessage sampleParse (TerminalInterface.new "llama3.2" false) "Hello"
          (.ok 404 replyBody)).1.assistant.conversation_history
        = [systemMessage, { role := "user", content := "Hello" }] :=
  sendMessage_non_200 sampleParse (TerminalInterface.new "llama3.2" false) "Hello" 404 replyBody (by decide)

/-- C7, as the code has it. A status-200 body that parses and contains an
error field makes `sendMessage` throw and keep the user message only, also when
the body holds a message content. When the error field is text, the error
thrown is "Ollama Error: " followed by that text; when it is any other value,
the error thrown is "JSON parsing error: " followed by the text of the type
error of the conversion, which names the type of the value. -/
theorem sendMessage_error_field (parse : String → Except String Json) (w : World) (m : String)
    (data : String) (j : Json) (hp : parse data = .ok j) (he : j.contains "error" = true) :
    (∀ text, j.index "error" = .ok (.str text) →
        (sendMessage parse w m (.ok 200 data)).2 = .error ("Ollama Error: " ++ text))
      ∧ (∃ what, (sendMessage parse w m (.ok 200 data)).2 = .error what)
      ∧ (sendMessage parse w m (.ok 200 data)).1.assistant.conversation_history
        = w.assistant.conversation_history ++ [{ role := "user", content := m }]
      ∧ (∃ value, j.index "error" = .ok value)
      ∧ (∀ value, j.index "error" = .ok value → (∀ text, value ≠ .str text) →
        (sendMessage parse w m (.ok 200 data)).2
          = .error ("JSON parsing error: "
              ++ ("[json.exception.type_error.302] type must be string, but is " ++ value.type_name))) := by
  have hidx : ∃ value, j.index "error" = .ok value := by
    cases j with
    | obj kvs => exact ⟨_, rfl⟩
    | null => exact ⟨_, rfl⟩
    | bool b => simp [Json.contains] at he
    | num n => simp [Json.contains] at he
    | str t => simp [Json.contains] at he
    | arr xs => simp [Json.contains] at he
  obtain ⟨value, hv⟩ := hidx
  have hx : extractReply parse data
      = match value.get_string with
        | .error what => .error (.json_exception what)
        | .ok text => .error (.runtime_error ("Ollama Error: " ++ text)) := by
    unfold extractReply
    simp only [hp, he, if_true, hv]
  refine ⟨?_, ?_, ?_, ⟨value, hv⟩, ?_⟩
  · intro text ht
    rw [hv] at ht
    cases ht
    simp [sendMessage, hx, Json.get_string]
  · cases value <;> simp [sendMessage, hx, Json.get_string]
  · cases value <;> simp [sendMessage, hx, Json.get_string]
  · intro value' hv' hnot
    rw [hv] at hv'
    cases hv'
    cases value with
    | str t => exact absurd rfl (hnot t)
    | null => simp [sendMessage, hx, Json.get_string]
    | bool b => simp [sendMessage, hx, Json.get_string]
    | num n => simp [sendMessage, hx, Json.get_string]
    | arr xs => simp [sendMessage, hx, Json.get_string]
    | obj kvs => simp [sendMessage, hx, Json.get_string]

/-- Witness of C7: a body with a text error field and a message content. -/
theorem sendMessage_error_field_witness :
    (sendMessage sampleParse (TerminalInterface.new "llama3.2" false) "Hello" (.ok 200 errorTextBody)).2
      = .error "Ollama Error: model not found" :=
  (sendMessage_error_field sampleParse (TerminalInterface.new "llama3.2" false) "Hello" errorTextBody
    (.obj [("error", .str "model not found"), ("message", .obj [("content", .str "x")])])
    (by rfl) (by rfl)).1 "model not found" (by rfl)

/-- Counterexample to C7 as stated: the body parses to an object whose error
field is the number 42; the error thrown is the JSON parsing error of the
conversion, not an error made of the error field. -/
theorem sendMessage_error_field_not_text :
    sampleParse errorNumberBody = .ok (.obj [("error", .num 42)])
      ∧ Json.contains (.obj [("error", .num 42)]) "error" = true
      ∧ (sendMessage sampleParse (TerminalInterface.new "llama3.2" false) "Hello"
          (.ok 200 errorNumberBody)).2
        = .error "JSON parsing error: [json.exception.type_error.302] type must be string, but is number"
      ∧ ¬ ∃ text, (sendMessage sampleParse (TerminalInterface.new "llama3.2" false) "Hello"
          (.ok 200 errorNumberBody)).2 = .error ("Ollama Error: " ++ text) := by
  have hr : (sendMessage sampleParse (TerminalInterface.new "llama3.2" false) "Hello"
      (.ok 200 errorNumberBody)).2
      = .error "JSON parsing error: [json.exception.type_error.302] type must be string, but is number" := by
    rfl
  refine ⟨by rfl, by rfl, hr, ?_⟩
  rintro ⟨text, ht⟩
  rw [hr] at ht
  have h1 := congrArg (fun s : String => s.data.head?) (Except.error.inj ht)
  simp at h1

/-- C8. For a status-200 body that parses and has no error field: when the
message field is absent, or the content field is absent from the message,
`sendMessage` throws the invalid-response error and records no reply; when the
message holds a text content, `sendMessage` returns exactly that text and
records it as the assistant message. -/
theorem sendMessage_message_content (parse : String → Except String Json) (w : World) (m : String)
    (data : String) (j : Json) (hp : parse data = .ok j) (he : j.contains "error" = false) :
    ((j.contains "message" = false
          ∨ ∃ message, j.index "message" = .ok message ∧ message.contains "content" = false) →
        (sendMessage parse w m (.ok 200 data)).2
            = .error "Invalid Ollama API response: no message content found"
          ∧ (sendMessage parse w m (.ok 200 data)).1.assistant.conversation_history
            = w.assistant.conversation_history ++ [{ role := "user", content := m }])
      ∧ (∀ message text, j.contains "message" = true → j.index "message" = .ok message →
          message.contains "content" = true → message.index "content" = .ok (.str text) →
        (sendMessage parse w m (.ok 200 data)).2 = .ok text
          ∧ (sendMessage parse w m (.ok 200 data)).1.assistant.conversation_history
            = w.assistant.conversation_history
                ++ [{ role := "user", content := m }, { role := "assistant", content := text }]) := by
  constructor
  · intro h
    have hx : extractReply parse data
        = .error (.runtime_error "Invalid Ollama API response: no message content found") := by
      unfold extractReply
      simp only [hp, he]
      rcases h with h | ⟨message, h1, h2⟩
      · simp [h]
      · by_cases hm : j.contains "message" = true
        · simp [hm, h1, h2]
        · simp [hm]
    simp [sendMessage, hx]
  · intro message text h1 h2 h3 h4
    have hx : extractReply parse data = .ok text := by
      unfold extractReply
      simp [hp, he, h1, h2, h3, h4, Json.get_string]
    simp [sendMessage, hx]

/-- Witness of C8: a body without content in its message, and a body whose
message content is "Hi there". -/
theorem sendMessage_message_content_witness :
    (sendMessage sampleParse (TerminalInterface.new "llama3.2" false) "Hello" (.ok 200 noContentBody)).2
        = .error "Invalid Ollama API response: no message content found"
      ∧ (sendMessage sampleParse (TerminalInterface.new "llama3.2" false) "Hello" (.ok 200 replyBody)).2
        = .ok "Hi there" :=
  ⟨((sendMessage_message_content sampleParse (TerminalInterface.new "llama3.2" false) "Hello"
      noContentBody (.obj [("message", .obj [("role", .str "assistant")])]) (by rfl) (by rfl)).1
      (Or.inr ⟨.obj [("role", .str "assistant")], by rfl, by rfl⟩)).1,
   ((sendMessage_message_content sampleParse (TerminalInterface.new "llama3.2" false) "Hello"
      replyBody (.obj [("message", .obj [("role", .str "assistant"), ("content", .str "Hi there")])])
      (by rfl) (by rfl)).2
      (.obj [("role", .str "assistant"), ("content", .str "Hi there")]) "Hi there"
      (by rfl) (by rfl) (by rfl) (by rfl)).1⟩

/-- C9, the code at the failing input. After a chat turn the line "/models"
does not bring the loop back to `AwaitingInput`: `sendMessage` has freed the
header list that the handle still points at, and the listing performs on that
handle, which is undefined behaviour. The same holds for "/model". The rest
of the claim holds: an iteration ends in `Stopped` exactly when the line is
"/quit" or "/exit", every other line but a listing on such a handle ends in
`AwaitingInput`, and a run of the loop stops only if one of its lines is
"/quit" or "/exit". -/
theorem step_listing_after_chat_crashes :
    (loop sampleParse (TerminalInterface.new "llama3.2" false)
        [{ line := "Hello", chat := .ok 200 replyBody, tags := .failed "", probe := none,
           selection := "" },
         { line := "/models", chat := .failed "", tags := .ok 200 threeModelsBody, probe := none,
           selection := "" }]).2 = .Crashed
      ∧ (∀ (parse : String → Except String Json) (w : World) (e : Event),
          (step parse w e).2 = .Stopped ↔ (e.line = "/quit" ∨ e.line = "/exit"))
      ∧ (∀ (parse : String → Except String Json) (w : World) (e : Event),
          ¬ (e.line = "/quit" ∨ e.line = "/exit") →
          ¬ (w.headers_freed = true ∧ (e.line = "/models" ∨ e.line = "/model")) →
          (step parse w e).2 = .AwaitingInput)
      ∧ (∀ (parse : String → Except String Json) (w : World) (e : Event),
          w.headers_freed = true → (e.line = "/models" ∨ e.line = "/model") →
          (step parse w e).2 = .Crashed)
      ∧ (∀ (parse : String → Except String Json) (w : World) (events : List Event),
          (loop parse w events).2 = .Stopped →
            ∃ x ∈ events, x.line = "/quit" ∨ x.line = "/exit") := by
  refine ⟨by rfl, ?_, ?_, ?_, ?_⟩
  · intro parse w e
    rw [step_state]
    by_cases hq : e.line = "/quit" ∨ e.line = "/exit"
    · simp [hq]
    · by_cases hm : w.headers_freed = true ∧ (e.line = "/models" ∨ e.line = "/model")
      · simp [hq, hm]
      · simp [hq, hm]
  · intro parse w e hq hm
    rw [step_state]
    simp [hq, hm]
  · intro parse w e hf hm
    have hq : ¬ (e.line = "/quit" ∨ e.line = "/exit") := by
      rcases hm with h | h <;> rw [h] <;> decide
    rw [step_state]
    simp [hq, hf, hm]
  · intro parse w events
    exact loop_state parse events w

/-- C10. A line whose first character is '/' and which is none of the eight
commands leaves the assistant (history and model name) and the requests
performed as they were, prints the prompt followed by the unknown-command
notice, and ends the iteration in `AwaitingInput`. -/
theorem step_unknown_command (parse : String → Except String Json) (w : World) (e : Event)
    (hfirst : e.line.toList.head? = some '/')
    (hu : e.line ∉ ["/help", "/clear", "/history", "/models", "/model", "/status", "/quit", "/exit"]) :
    (step parse w e).1.assistant = w.assistant
      ∧ (step parse w e).1.requests = w.requests
      ∧ (step parse w e).1.cout
        = w.cout ++ w.colorize "👤 You: " (ColorUtils.BOLD ++ ColorUtils.BLUE)
          ++ (w.colorize "❌ Unknown command: " ColorUtils.RED ++ e.line ++ "\n"
            ++ w.colorize "💡 Type '/help' for available commands." ColorUtils.YELLOW ++ "\n" ++ "\n")
      ∧ (step parse w e).2 = .AwaitingInput := by
  simp only [List.mem_cons, List.mem_singleton, List.not_mem_nil, or_false, not_or] at hu
  obtain ⟨h1, h2, h3, h4, h5, h6, h7, h8⟩ := hu
  have hc : isCommand e.line = true := (isCommand_iff_head e.line).mpr hfirst
  have hne : e.line.isEmpty = false := by
    unfold isCommand at hc
    simp only [Bool.and_eq_true, Bool.not_eq_true'] at hc
    exact hc.1
  have hh : handleCommand parse (getInput w) e.line e
      = ((getInput w).print (unknownCommandNotice (getInput w) e.line), some true) := by
    unfold handleCommand
    simp [h1, h2, h3, h4, h5, h6, h7, h8]
  unfold step
  dsimp only
  rw [if_neg (by simp [hne]), if_pos hc, hh]
  exact ⟨rfl, rfl, rfl, rfl⟩

/-- Witness of C10: the line "/foo" in a fresh session. -/
theorem step_unknown_command_witness :
    (step sampleParse (TerminalInterface.new "llama3.2" false)
        { line := "/foo", chat := .failed "", tags := .failed "", probe := none,
          selection := "" }).1.assistant = OllamaAssistant.new "llama3.2"
      ∧ (step sampleParse (TerminalInterface.new "llama3.2" false)
        { line := "/foo", chat := .failed "", tags := .failed "", probe := none,
          selection := "" }).1.cout
        = "👤 You: ❌ Unknown command: /foo\n💡 Type '/help' for available commands.\n\n" := by
  have h := step_unknown_command sampleParse (TerminalInterface.new "llama3.2" false)
    { line := "/foo", chat := .failed "", tags := .failed "", probe := none, selection := "" }
    (by rfl) (by decide)
  exact ⟨h.1, h.2.2.1.trans (by rfl)⟩


/-! ## Blank lines -/

theorem sendMessage_requests (parse : String → Except String Json) (w : World) (m : String)
    (res : CurlResult) :
    (sendMessage parse w m res).1.requests
      = w.requests ++ [chatRequest { w.assistant with
          conversation_history :=
            w.assistant.conversation_history ++ [({ role := "user", content := m } : Message)] }] := by
  cases res with
  | failed strerror => simp [sendMessage]
  | ok code data =>
    by_cases hc : code = 200
    · subst hc
      cases hx : extractReply parse data with
      | ok r => simp [sendMessage, hx]
      | error ex => cases ex <;> simp [sendMessage, hx]
    · simp [sendMessage, hc]

theorem step_chat (parse : String → Except String Json) (w : World) (e : Event)
    (hne : e.line.isEmpty = false) (hc : isCommand e.line = false) :
    (step parse w e).1.assistant
        = (sendMessage parse (showThinking (getInput w)) e.line e.chat).1.assistant
      ∧ (step parse w e).1.requests
        = (sendMessage parse (showThinking (getInput w)) e.line e.chat).1.requests := by
  unfold step
  dsimp only
  rw [if_neg (by simp [hne]), if_neg (by simp [hc])]
  split <;> simp_all [clearThinking]

theorem blank_not_command (line : String) (hb : ∀ c ∈ line.toList, c = ' ' ∨ c = '\t') :
    isCommand line = false ∧ line ≠ "/quit" ∧ line ≠ "/exit" ∧ line ≠ "/models"
      ∧ line ≠ "/model" := by
  refine ⟨?_, ?_, ?_, ?_, ?_⟩
  · unfold isCommand
    cases hl : line.toList with
    | nil => simp
    | cons c cs =>
      have := hb c (by rw [hl]; exact List.mem_cons_self _ _)
      rcases this with rfl | rfl <;> simp
  · rintro rfl
    have := hb '/' (by decide)
    revert this
    decide
  · rintro rfl
    have := hb '/' (by decide)
    revert this
    decide
  · rintro rfl
    have := hb '/' (by decide)
    revert this
    decide
  · rintro rfl
    have := hb '/' (by decide)
    revert this
    decide

/-- C11, as the code has it. A line of spaces and tabs only, the empty line
included, ends the iteration in `AwaitingInput` with the model name unchanged.
The empty line leaves the assistant and the requests performed as they were
and prints only the prompt. A line that is not empty is not trimmed: it is
sent as a chat message, so one chat request is performed and the line is
appended to the history as a user message. -/
theorem step_blank_line (parse : String → Except String Json) (w : World) (e : Event)
    (hb : ∀ c ∈ e.line.toList, c = ' ' ∨ c = '\t') :
    (step parse w e).2 = .AwaitingInput
      ∧ (step parse w e).1.assistant.model_name = w.assistant.model_name
      ∧ (e.line = "" →
          (step parse w e).1.assistant = w.assistant
            ∧ (step parse w e).1.requests = w.requests
            ∧ (step parse w e).1.cout
              = w.cout ++ w.colorize "👤 You: " (ColorUtils.BOLD ++ ColorUtils.BLUE))
      ∧ (e.line ≠ "" →
          (step parse w e).1.requests
              = w.requests ++ [chatRequest { w.assistant with
                  conversation_history :=
                    w.assistant.conversation_history
                      ++ [({ role := "user", content := e.line } : Message)] }]
            ∧ ∃ tail, (step parse w e).1.assistant.conversation_history
              = w.assistant.conversation_history
                  ++ ({ role := "user", content := e.line } : Message) :: tail) := by
  obtain ⟨hc, hq, hx, hm1, hm2⟩ := blank_not_command e.line hb
  have hempty : e.line = "" →
      (step parse w e).1.assistant = w.assistant
        ∧ (step parse w e).1.requests = w.requests
        ∧ (step parse w e).1.cout
          = w.cout ++ w.colorize "👤 You: " (ColorUtils.BOLD ++ ColorUtils.BLUE) := by
    intro h
    have hi : e.line.isEmpty = true := (String.isEmpty_iff _).mpr h
    unfold step
    dsimp only
    rw [if_pos hi]
    exact ⟨rfl, rfl, rfl⟩
  have hchat : e.line ≠ "" → e.line.isEmpty = false := by
    intro h
    cases hi : e.line.isEmpty with
    | false => rfl
    | true => exact absurd ((String.isEmpty_iff _).mp hi) h
  refine ⟨?_, ?_, hempty, ?_⟩
  · rw [step_state]
    simp [hq, hx, hm1, hm2]
  · by_cases h : e.line = ""
    · rw [(hempty h).1]
    · rw [(step_chat parse w e (hchat h) hc).1, sendMessage_model]
      rfl
  · intro h
    obtain ⟨h1, h2⟩ := step_chat parse w e (hchat h) hc
    constructor
    · rw [h2, sendMessage_requests]
      rfl
    · rw [h1, sendMessage_history_eq]
      exact ⟨_, rfl⟩

/-- Witness of C11: the empty line and the line made of a space and a tab, in
a fresh session. -/
theorem step_blank_line_witness :
    (step sampleParse (TerminalInterface.new "llama3.2" false)
        { line := "", chat := .failed "", tags := .failed "", probe := none,
          selection := "" }).1.assistant = OllamaAssistant.new "llama3.2"
      ∧ (step sampleParse (TerminalInterface.new "llama3.2" false)
        { line := " \t", chat := .failed "timeout", tags := .failed "", probe := none,
          selection := "" }).2 = .AwaitingInput
      ∧ (step sampleParse (TerminalInterface.new "llama3.2" false)
        { line := " \t", chat := .failed "timeout", tags := .failed "", probe := none,
          selection := "" }).1.assistant.model_name = "llama3.2" := by
  have h := step_blank_line sampleParse (TerminalInterface.new "llama3.2" false)
    { line := "", chat := .failed "", tags := .failed "", probe := none, selection := "" }
    (by simp)
  have hb := step_blank_line sampleParse (TerminalInterface.new "llama3.2" false)
    { line := " \t", chat := .failed "timeout", tags := .failed "", probe := none, selection := "" }
    (by decide)
  exact ⟨(h.2.2.1 rfl).1, hb.1, hb.2.1⟩

/-- Counterexample to C11 as stated: the line made of one space is empty after
trimming, yet the step performs a chat request and appends the line and the
reply to the history. -/
theorem step_space_line_is_chat :
    (∀ c ∈ " ".toList, c = ' ' ∨ c = '\t')
      ∧ (step sampleParse (TerminalInterface.new "llama3.2" false)
          { line := " ", chat := .ok 200 replyBody, tags := .failed "", probe := none,
            selection := "" }).1.assistant.conversation_history
        = [systemMessage, { role := "user", content := " " },
            { role := "assistant", content := "Hi there" }]
      ∧ (TerminalInterface.new "llama3.2" false).assistant.conversation_history = [systemMessage]
      ∧ (step sampleParse (TerminalInterface.new "llama3.2" false)
          { line := " ", chat := .ok 200 replyBody, tags := .failed "", probe := none,
            selection := "" }).1.requests.length = 1
      ∧ (TerminalInterface.new "llama3.2" false).requests.length = 0 := by
  refine ⟨by simp, by rfl, by rfl, by rfl, by rfl⟩

/-! ## Reading the selection -/

theorem isDigit_toNat (c : Char) (h : c.isDigit = true) : 48 ≤ c.toNat ∧ c.toNat ≤ 57 := by
  unfold Char.isDigit at h
  simp only [ge_iff_le, Bool.and_eq_true, decide_eq_true_eq] at h
  obtain ⟨h1, h2⟩ := h
  rw [UInt32.le_def] at h1 h2
  exact ⟨h1, h2⟩

theorem isDigit_not_space (c : Char) (h : c.isDigit = true) :
    isspace c = false ∧ c ≠ '-' ∧ c ≠ '+' := by
  have hn := isDigit_toNat c h
  refine ⟨?_, ?_, ?_⟩
  · unfold isspace
    simp only [Bool.or_eq_false_iff, decide_eq_false_iff_not]
    refine ⟨⟨⟨⟨⟨?_, ?_⟩, ?_⟩, ?_⟩, ?_⟩, ?_⟩
    · rintro rfl; simp at hn
    · rintro rfl; simp at hn
    · rintro rfl; simp at hn
    · rintro rfl; simp at hn
    · omega
    · omega
  · rintro rfl; simp at hn
  · rintro rfl; simp at hn

theorem stoi_digits (s : String) (hne : s.toList ≠ [])
    (hd : ∀ c ∈ s.toList, c.isDigit = true) (hv : digitsValue s.toList ≤ 2 ^ 31 - 1) :
    stoi s = .ok (digitsValue s.toList : Int) := by
  unfold stoi
  obtain ⟨c, cs, hl⟩ := List.exists_cons_of_ne_nil hne
  have hc := isDigit_not_space c (hd c (by rw [hl]; exact List.mem_cons_self _ _))
  have h1 : s.toList.dropWhile isspace = s.toList := by
    rw [hl, List.dropWhile_cons_of_neg (by simp [hc.1])]
  have h2 : (match s.toList with
      | '-' :: rest => (true, rest)
      | '+' :: rest => (false, rest)
      | rest => (false, rest)) = (false, s.toList) := by
    rw [hl]
    split
    · rename_i heq
      exact absurd (List.cons.inj heq).1 hc.2.1
    · rename_i heq
      exact absurd (List.cons.inj heq).1 hc.2.2
    · rfl
  have h3 : s.toList.takeWhile Char.isDigit = s.toList :=
    List.takeWhile_eq_self_iff.mpr hd
  simp only [h1, h2, h3]
  rw [if_neg hne]
  simp only [Bool.false_eq_true, if_false]
  rw [if_neg]
  push_neg
  constructor
  · have : (0 : Int) ≤ (digitsValue s.toList : Int) := Int.ofNat_nonneg _
    omega
  · have : (digitsValue s.toList : Int) ≤ ((2 ^ 31 - 1 : Nat) : Int) := Int.ofNat_le.mpr hv
    simpa using this

theorem stoi_ok_nonempty (s : String) (k : Int) (h : stoi s = .ok k) : s.isEmpty = false := by
  cases he : s.isEmpty with
  | false => rfl
  | true =>
    have h0 : stoi "" = .error "stoi" := by rfl
    rw [(String.isEmpty_iff s).mp he, h0] at h
    cases h

theorem static_cast_int_small (n : Nat) (h : n < 2 ^ 31) : static_cast_int n = n := by
  unfold static_cast_int
  rw [Nat.mod_eq_of_lt (by omega)]
  push_cast
  ring

theorem changeModelWith_model (w : World) (models : List String) (selection : String) :
    (changeModelWith w models selection).assistant.model_name
      = if models.isEmpty then w.assistant.model_name
        else if selection.isEmpty then w.assistant.model_name
        else
          match stoi selection with
          | .ok choice =>
            if choice ≥ 1 ∧ choice ≤ static_cast_int models.length then
              models.getD (choice - 1).toNat ""
            else w.assistant.model_name
          | .error _ => w.assistant.model_name := by
  unfold changeModelWith
  dsimp only
  split_ifs
  · simp
  · simp
  · cases stoi selection with
    | ok choice => dsimp only; split_ifs <;> simp
    | error _ => simp

theorem changeModel_of_listing (parse : String → Except String Json) (w : World)
    (tags : CurlResult) (selection : String) (models : List String)
    (hl : (getAvailableModels parse w tags).2 = some models) :
    changeModel parse w tags selection
      = (changeModelWith (getAvailableModels parse w tags).1 models selection, true) := by
  unfold changeModel
  simp only [hl]

/-- C12, as the code has it. When the listing returns a non-empty list of
fewer than `2 ^ 31` models, `changeModel` returns and: when `std::stoi` reads
the number `k` from the selection and `1 ≤ k ≤ n`, the model becomes the
`k`-th listed name, in particular when the selection is the decimal numeral of
`k`; when the selection is empty, when `std::stoi` throws, and when the number
read is out of range, the model is unchanged; the history is unchanged in
every case. -/
theorem changeModel_selects (parse : String → Except String Json) (w : World) (tags : CurlResult)
    (selection : String) (models : List String)
    (hl : (getAvailableModels parse w tags).2 = some models)
    (hne : models ≠ [])
    (hn : models.length < 2 ^ 31) :
    (changeModel parse w tags selection).1.assistant.conversation_history
        = w.assistant.conversation_history
      ∧ (∀ k : Int, stoi selection = .ok k → 1 ≤ k → k ≤ (models.length : Int) →
          some (changeModel parse w tags selection).1.assistant.model_name
            = models[(k - 1).toNat]?)
      ∧ (selection.toList ≠ [] → (∀ c ∈ selection.toList, c.isDigit = true) →
          1 ≤ digitsValue selection.toList →
          digitsValue selection.toList ≤ models.length →
          some (changeModel parse w tags selection).1.assistant.model_name
            = models[digitsValue selection.toList - 1]?)
      ∧ ((selection.isEmpty = true ∨ (∃ what, stoi selection = .error what)
            ∨ ∃ k : Int, stoi selection = .ok k ∧ (k < 1 ∨ (models.length : Int) < k)) →
          (changeModel parse w tags selection).1.assistant.model_name = w.assistant.model_name)
      ∧ (changeModel parse w tags selection).2 = true := by
  have hcm := changeModel_of_listing parse w tags selection models hl
  have hm := changeModelWith_model (getAvailableModels parse w tags).1 models selection
  rw [getAvailableModels_assistant] at hm
  have he : models.isEmpty = false := by
    cases models with
    | nil => exact absurd rfl hne
    | cons _ _ => rfl
  have hcast := static_cast_int_small _ hn
  simp only [he, Bool.false_eq_true, if_false, hcast] at hm
  rw [hcm]
  dsimp only
  have key : ∀ k : Int, stoi selection = .ok k → 1 ≤ k → k ≤ (models.length : Int) →
      some (changeModelWith (getAvailableModels parse w tags).1 models selection).assistant.model_name
        = models[(k - 1).toNat]? := by
    intro k hk h1 h2
    have hs := stoi_ok_nonempty selection k hk
    simp only [hs, Bool.false_eq_true, if_false, hk] at hm
    rw [if_pos ⟨h1, h2⟩] at hm
    have hlt : (k - 1).toNat < models.length := by omega
    rw [hm, List.getD_eq_getElem?_getD, List.getElem?_eq_getElem hlt]
    rfl
  refine ⟨by simp, key, ?_, ?_, rfl⟩
  · intro hl hd h1 h2
    have hs := stoi_digits selection hl hd (by omega)
    have := key _ hs (by exact_mod_cast h1) (by exact_mod_cast h2)
    have ht : ((digitsValue selection.toList : Int) - 1).toNat = digitsValue selection.toList - 1 := by
      omega
    rw [ht] at this
    exact this
  · rintro (hs | ⟨what, hw⟩ | ⟨k, hk, hr⟩)
    · simpa [hs] using hm
    · by_cases hs : selection.isEmpty = true
      · simpa [hs] using hm
      · simpa [hs, hw] using hm
    · have hs := stoi_ok_nonempty selection k hk
      simp only [hs, Bool.false_eq_true, if_false, hk] at hm
      rw [if_neg (by omega)] at hm
      exact hm

/-- Witness of C12: three models listed; "2" selects the second, "9" leaves
the model as it was. -/
theorem changeModel_selects_witness :
    (changeModel listingParse (TerminalInterface.new "llama3.2" false) (.ok 200 threeModelsBody)
        "2").1.assistant.model_name = "codellama"
      ∧ (changeModel listingParse (TerminalInterface.new "llama3.2" false) (.ok 200 threeModelsBody)
        "9").1.assistant.model_name = "llama3.2" := by
  have hl : (getAvailableModels listingParse (TerminalInterface.new "llama3.2" false)
      (.ok 200 threeModelsBody)).2 = some ["llama3.2", "codellama", "phi3:mini"] := by rfl
  have h2 := (changeModel_selects listingParse (TerminalInterface.new "llama3.2" false)
    (.ok 200 threeModelsBody) "2" ["llama3.2", "codellama", "phi3:mini"] hl (by simp)
    (by simp)).2.1 2 (by rfl) (by decide) (by decide)
  have h9 := (changeModel_selects listingParse (TerminalInterface.new "llama3.2" false)
    (.ok 200 threeModelsBody) "9" ["llama3.2", "codellama", "phi3:mini"] hl (by simp)
    (by simp)).2.2.2.1
    (Or.inr (Or.inr ⟨9, by rfl, Or.inr (by decide)⟩))
  exact ⟨Option.some.inj h2, h9⟩

/-- Counterexample to C12 as stated: with three models listed the selection
"2abc", which is not a number, makes the second listed name the model. -/
theorem changeModel_trailing_text :
    (getAvailableModels listingParse (TerminalInterface.new "llama3.2" false)
        (.ok 200 threeModelsBody)).2 = some ["llama3.2", "codellama", "phi3:mini"]
      ∧ ¬ (∀ c ∈ "2abc".toList, c.isDigit = true)
      ∧ stoi "2abc" = .ok 2
      ∧ (TerminalInterface.new "llama3.2" false).assistant.model_name = "llama3.2"
      ∧ (changeModel listingParse (TerminalInterface.new "llama3.2" false) (.ok 200 threeModelsBody)
          "2abc").1.assistant.model_name = "codellama" := by
  refine ⟨by rfl, by decide, by rfl, by rfl, by rfl⟩

/-! ## The model registry -/

/-- C13, the code at the failing input. On a fresh handle a listing whose
second entry has a number for a name makes `getAvailableModels` return the one
name pushed before the conversion threw, not the empty list. On a handle whose
header option does not point at a freed list the rest of the claim holds: on a
transport failure, on a body that does not parse, on a body without a models
field and on a models field that is a text the result is empty. After a chat
turn the header option points at a freed list and the call returns nothing. -/
theorem getAvailableModels_partial_on_bad_name :
    (getAvailableModels listingParse (TerminalInterface.new "llama3.2" false)
        (.ok 200 numberNameBody)).2 = some ["llama3.2"]
      ∧ (∀ (parse : String → Except String Json) (w : World) (strerror : String),
          w.headers_freed = false → (getAvailableModels parse w (.failed strerror)).2 = some [])
      ∧ (∀ (parse : String → Except String Json) (w : World) (code : Int) (data what : String),
          w.headers_freed = false → parse data = .error what →
            (getAvailableModels parse w (.ok code data)).2 = some [])
      ∧ (∀ (parse : String → Except String Json) (w : World) (code : Int) (data : String) (j : Json),
          w.headers_freed = false → parse data = .ok j → j.contains "models" = false →
            (getAvailableModels parse w (.ok code data)).2 = some [])
      ∧ (∀ (parse : String → Except String Json) (w : World) (code : Int) (data : String)
          (kvs : List (String × Json)) (text : String),
          w.headers_freed = false → parse data = .ok (.obj kvs) →
            Json.lookup "models" kvs = some (.str text) →
            (getAvailableModels parse w (.ok code data)).2 = some [])
      ∧ (∀ (parse : String → Except String Json) (w : World) (res : CurlResult),
          w.headers_freed = true → (getAvailableModels parse w res).2 = none) := by
  refine ⟨by rfl, ?_, ?_, ?_, ?_, ?_⟩
  · intro parse w strerror hf
    simp [getAvailableModels, hf]
  · intro parse w code data what hf hp
    simp [getAvailableModels, hf, hp]
  · intro parse w code data j hf hp hc
    simp [getAvailableModels, hf, hp, hc]
  · intro parse w code data kvs text hf hp hl
    simp [getAvailableModels, hf, hp, Json.contains, Json.index, hl, items, collectNames]
  · intro parse w res hf
    exact (getAvailableModels_returns parse w res).mpr hf

/-- C14, as the code has it. `checkOllamaConnection` returns true exactly when
the probe got a handle and `curl_easy_perform` succeeded, whatever the status
code of the response; it returns false without a handle and on every
transport failure. -/
theorem checkOllamaConnection_true_iff (w : World) (probe : Option CurlResult) :
    ((checkOllamaConnection w probe).2 = true ↔ ∃ code data, probe = some (.ok code data))
      ∧ ((checkOllamaConnection w probe).2 = false
          ↔ probe = none ∨ ∃ strerror, probe = some (.failed strerror)) := by
  cases probe with
  | none => simp [checkOllamaConnection]
  | some res => cases res <;> simp [checkOllamaConnection]

/-- Counterexample to C14 as stated: a response with status 500 is a success
of the transport, and `checkOllamaConnection` returns true. -/
theorem checkOllamaConnection_status_500 :
    (checkOllamaConnection (TerminalInterface.new "llama3.2" false)
      (some (.ok 500 "Internal Server Error"))).2 = true := by
  rfl

end OllamaTerminal
